import Mathlib

/-!
Shallow embedding of `src/pymkv/MKVTrack.py` (the `MKVTrack` class).

External collaborators — `os.path.expanduser`, `os.path.isfile`,
`pymkv.Verifications.verify_supported`, `pymkv.ISO639_2.is_ISO639_2` and the
`mkvmerge -J` probe invoked through `subprocess.check_output` + `json.loads`
— are modelled as an environment `Env` of pure functions, since their code
is outside the verified source.  Python exceptions are modelled as the
`PyErr` type; in-place mutation with exceptions is modelled by setters of
type `Except (PyErr × MKVTrack) MKVTrack`, where the error case carries the
state of the object at the moment the exception escapes (so partial writes
made before a raise remain visible, exactly as in Python).
-/

deriving instance DecidableEq for Except

/-- One record of the probe `tracks` sequence: the two fields the code reads
from `info_json` at a given track index, namely `codec` and `type`. -/
structure ProbeTrack where
  codec : String
  type : String
deriving DecidableEq

/-- Outcome of running `sp.check_output` on `[mkvmerge_path, -J, file_path]`
followed by `json.loads` and the lookup of the `tracks` key:
either a usable ordered `tracks` sequence, or one of the three failure modes
the Python code can hit at line 130 of `MKVTrack.py`. -/
inductive ProbeOutcome where
  | ok (tracks : List ProbeTrack)
  | exitNonzero
  | unparsable
  | missingTracks
deriving DecidableEq

/-- Python exception kinds raised by (or propagated through) `MKVTrack`,
each with the message the code formats where it builds one. -/
inductive PyErr where
  | valueError (msg : String)
  | indexError (msg : String)
  | typeError (msg : String)
  | fileNotFoundError (msg : String)
  | calledProcessError
  | jsonDecodeError
  | keyError
deriving DecidableEq

/-- A Python value handed to the `tags` setter: a string, or anything else
(carrying its `str()` rendering, used in the `TypeError` message). -/
inductive PyVal where
  | str (s : String)
  | other (r : String)
deriving DecidableEq

/-- The external world as the code observes it.  `content` maps a path to the
bytes of the file there; no function of `MKVTrack` reads it, which is how the
claim that file contents are never inspected is made checkable. -/
structure Env where
  expanduser : String → String
  verify_supported : String → Bool
  is_ISO639_2 : String → Bool
  isfile : String → Bool
  probe : String → String → ProbeOutcome
  content : String → List Nat

/-- The fields of an `MKVTrack` instance, named as in the source
(`_`-prefixed for the private attributes behind properties). -/
structure MKVTrack where
  mkvmerge_path : String
  _file_path : Option String
  _track_id : Option Int
  _track_codec : Option String
  _track_type : Option String
  track_name : Option String
  _language : Option String
  _tags : Option String
  default_track : Bool
  forced_track : Bool
  no_chapters : Bool
  no_global_tags : Bool
  no_track_tags : Bool
  no_attachments : Bool
deriving DecidableEq

/-- Line 130: run the probe against the current `file_path` and surface its
failures as the exceptions Python would raise there.  A `None` file path
would make `subprocess` raise `TypeError` before any process runs. -/
def run_probe (env : Env) (mkvmerge_path : String) (fp : Option String) :
    Except PyErr (List ProbeTrack) :=
  match fp with
  | none => .error (.typeError "expected str, bytes or os.PathLike object, not NoneType")
  | some p =>
    match env.probe mkvmerge_path p with
    | .ok tracks => .ok tracks
    | .exitNonzero => .error .calledProcessError
    | .unparsable => .error .jsonDecodeError
    | .missingTracks => .error .keyError

/-- The exact message of the `ValueError` at line 113 of `MKVTrack.py`:
the source omits `.format(file_path)`, so the placeholder stays literal. -/
def unsupportedMsg : String := "\"\x7b\x7d\" is not a supported file"

/-- Whether an exception is the kind raised for an unsupported file
(the `UnsupportedFileError` kind of the specification taxonomy). -/
def isUnsupportedErr (e : PyErr) : Bool := e == .valueError unsupportedMsg

/-- Setter of `track_id` (lines 128-135): probe the current file, range-check
the index against the length of the `tracks` sequence, then store the id and
overwrite codec and type from the indexed record.  On any raise the state
is unchanged. -/
def set_track_id (env : Env) (t : MKVTrack) (track_id : Int) :
    Except (PyErr × MKVTrack) MKVTrack :=
  match run_probe env t.mkvmerge_path t._file_path with
  | .error e => .error (e, t)
  | .ok tracks =>
    if h : 0 ≤ track_id ∧ track_id < (tracks.length : Int) then
      let tr := tracks.get ⟨track_id.toNat, by omega⟩
      .ok { t with _track_id := some track_id, _track_codec := some tr.codec, _track_type := some tr.type }
    else
      .error (.indexError "track index out of range", t)

/-- Setter of `file_path` (lines 109-115): expand the user-relative path, check
`verify_supported`, store the expanded path, then cascade `track_id = 0`.
Note the store happens before the cascade: a cascade failure escapes with
`_file_path` already overwritten. -/
def set_file_path (env : Env) (t : MKVTrack) (file_path : String) :
    Except (PyErr × MKVTrack) MKVTrack :=
  let fp := env.expanduser file_path
  if env.verify_supported fp then
    set_track_id env { t with _file_path := some fp } 0
  else
    .error (.valueError unsupportedMsg, t)

/-- Setter of `language` (lines 147-152): `None` or an ISO639-2 code is stored
verbatim, anything else raises `ValueError`. -/
def set_language (env : Env) (t : MKVTrack) (language : Option String) :
    Except (PyErr × MKVTrack) MKVTrack :=
  match language with
  | none => .ok { t with _language := none }
  | some c =>
    if env.is_ISO639_2 c then .ok { t with _language := some c }
    else .error (.valueError "not an ISO639-2 language code", t)

/-- Setter of `tags` (lines 162-169): type-check before expansion, expand, check
`isfile`, store the expanded path.  The file content is never read. -/
def set_tags (env : Env) (t : MKVTrack) (v : PyVal) :
    Except (PyErr × MKVTrack) MKVTrack :=
  match v with
  | .other r => .error (.typeError ("\"" ++ r ++ "\" is not of type str"), t)
  | .str p =>
    let fp := env.expanduser p
    if env.isfile fp then .ok { t with _tags := some fp }
    else .error (.fileNotFoundError ("\"" ++ fp ++ "\" does not exist"), t)

/-- Getter properties of the class (lines 98-107, 117-126, 137-145,
154-160, 171-179): each returns the private attribute behind it; `track_codec`
and `track_type` have no setter at all, so these two are read-only views. -/
def MKVTrack.file_path (t : MKVTrack) : Option String := t._file_path

/-- Getter of the `track_id` property (lines 117-126). -/
def MKVTrack.track_id (t : MKVTrack) : Option Int := t._track_id

/-- Getter of the `language` property (lines 137-145). -/
def MKVTrack.language (t : MKVTrack) : Option String := t._language

/-- Getter of the `tags` property (lines 154-160). -/
def MKVTrack.tags (t : MKVTrack) : Option String := t._tags

/-- Getter of the read-only `track_codec` property (lines 171-174). -/
def MKVTrack.track_codec (t : MKVTrack) : Option String := t._track_codec

/-- Getter of the read-only `track_type` property (lines 176-179). -/
def MKVTrack.track_type (t : MKVTrack) : Option String := t._track_type

/-- The attribute values of a freshly allocated instance before `__init__`
runs a given assignment; Python has no attributes yet at that point, so any
placeholder works — every field below is overwritten (or the construction
fails) before the constructor returns. -/
def blank : MKVTrack :=
  { mkvmerge_path := "", _file_path := none, _track_id := none, _track_codec := none,
    _track_type := none, track_name := none, _language := none, _tags := none,
    default_track := false, forced_track := false, no_chapters := false,
    no_global_tags := false, no_track_tags := false, no_attachments := false }

/-- The state after the first four assignments of `__init__` (lines 71-76):
codec and type cleared, the probe tool name defaulted, `_file_path` still
`None`, just before the `file_path` setter runs. -/
def preInit : MKVTrack :=
  { blank with
    _track_codec := none, _track_type := none,
    mkvmerge_path := "mkvmerge", _file_path := none }

/-- Constructor `__init__` (lines 47-93), assignment by assignment in source order:
codec/type cleared, `mkvmerge_path` defaulted, `file_path` set through its
setter (which cascades `track_id = 0`), `_track_id` reset to `None`,
`track_id` set through its setter, then name, language (validated), tags
cleared, the two flag arguments, and the four exclusion flags. -/
def MKVTrack.init (env : Env) (file_path : String) (track_id : Int)
    (track_name : Option String) (language : Option String)
    (default_track : Bool) (forced_track : Bool) :
    Except (PyErr × MKVTrack) MKVTrack := do
  let t1 ← set_file_path env preInit file_path
  let t2 := { t1 with _track_id := none }
  let t3 ← set_track_id env t2 track_id
  let t4 := { t3 with track_name := track_name, _language := none }
  let t5 ← set_language env t4 language
  let t6 := { t5 with
    _tags := none, default_track := default_track,
    forced_track := forced_track, no_chapters := false,
    no_global_tags := false, no_track_tags := false,
    no_attachments := false }
  return t6

/-- Whether `hay` starts with `needle`, over character lists. -/
def leadsWith : List Char → List Char → Bool
  | [], _ => true
  | _ :: _, [] => false
  | n :: ns, h :: hs => n == h && leadsWith ns hs

/-- Whether `needle` occurs in `hay`, over character lists. -/
def listOccurs (needle : List Char) : List Char → Bool
  | [] => needle.isEmpty
  | h :: hs => leadsWith needle (h :: hs) || listOccurs needle hs

/-- Substring test used to state facts about exception messages. -/
def strContains (hay needle : String) : Bool :=
  listOccurs needle.data hay.data

/-- Consistency of the derived fields with the current `(file path, track id)`
pair, as the probe reports it: the state names a file and an index, the probe
of that file with the tool held by the state succeeds, the index is in
range, and `_track_codec` / `_track_type` are exactly the fields of the
indexed record. -/
def consistentB (env : Env) (t : MKVTrack) : Bool :=
  match t._file_path, t._track_id with
  | some fp, some i =>
    match env.probe t.mkvmerge_path fp with
    | .ok tracks =>
      if h : 0 ≤ i ∧ i < (tracks.length : Int) then
        let tr := tracks.get ⟨i.toNat, by omega⟩
        t._track_codec == some tr.codec && t._track_type == some tr.type
      else false
    | _ => false
  | _, _ => false

/-- States reachable through construction and any sequence of mutator calls,
successful or rejected: every setter of the class, plus plain writes to the
unvalidated metadata attributes (`track_name` and the six flags).  A rejected
call leaves the descriptor in the state carried by the raised exception. -/
inductive Reach (env : Env) : MKVTrack → Prop where
  | init (fp : String) (i : Int) (nm lg : Option String) (d fo : Bool) (t : MKVTrack) :
      MKVTrack.init env fp i nm lg d fo = .ok t → Reach env t
  | fp_ok (t : MKVTrack) (p : String) (t2 : MKVTrack) :
      Reach env t → set_file_path env t p = .ok t2 → Reach env t2
  | fp_err (t : MKVTrack) (p : String) (e : PyErr) (t2 : MKVTrack) :
      Reach env t → set_file_path env t p = .error (e, t2) → Reach env t2
  | tid_ok (t : MKVTrack) (i : Int) (t2 : MKVTrack) :
      Reach env t → set_track_id env t i = .ok t2 → Reach env t2
  | tid_err (t : MKVTrack) (i : Int) (e : PyErr) (t2 : MKVTrack) :
      Reach env t → set_track_id env t i = .error (e, t2) → Reach env t2
  | lang_ok (t : MKVTrack) (l : Option String) (t2 : MKVTrack) :
      Reach env t → set_language env t l = .ok t2 → Reach env t2
  | lang_err (t : MKVTrack) (l : Option String) (e : PyErr) (t2 : MKVTrack) :
      Reach env t → set_language env t l = .error (e, t2) → Reach env t2
  | tags_ok (t : MKVTrack) (v : PyVal) (t2 : MKVTrack) :
      Reach env t → set_tags env t v = .ok t2 → Reach env t2
  | tags_err (t : MKVTrack) (v : PyVal) (e : PyErr) (t2 : MKVTrack) :
      Reach env t → set_tags env t v = .error (e, t2) → Reach env t2
  | name (t : MKVTrack) (nm : Option String) :
      Reach env t → Reach env { t with track_name := nm }
  | flags (t : MKVTrack) (a b c d e f : Bool) :
      Reach env t → Reach env { t with
        default_track := a, forced_track := b, no_chapters := c,
        no_global_tags := d, no_track_tags := e, no_attachments := f }

/-- Like `Reach`, but a rejected `file_path` assignment is only taken when it
fails at the support check (where the state is untouched), not when its
cascaded re-probe fails (where `_file_path` is already overwritten). -/
inductive ReachOk (env : Env) : MKVTrack → Prop where
  | init (fp : String) (i : Int) (nm lg : Option String) (d fo : Bool) (t : MKVTrack) :
      MKVTrack.init env fp i nm lg d fo = .ok t → ReachOk env t
  | fp_ok (t : MKVTrack) (p : String) (t2 : MKVTrack) :
      ReachOk env t → set_file_path env t p = .ok t2 → ReachOk env t2
  | fp_rej (t : MKVTrack) (p : String) (e : PyErr) (t2 : MKVTrack) :
      ReachOk env t → env.verify_supported (env.expanduser p) = false →
      set_file_path env t p = .error (e, t2) → ReachOk env t2
  | tid_ok (t : MKVTrack) (i : Int) (t2 : MKVTrack) :
      ReachOk env t → set_track_id env t i = .ok t2 → ReachOk env t2
  | tid_err (t : MKVTrack) (i : Int) (e : PyErr) (t2 : MKVTrack) :
      ReachOk env t → set_track_id env t i = .error (e, t2) → ReachOk env t2
  | lang_ok (t : MKVTrack) (l : Option String) (t2 : MKVTrack) :
      ReachOk env t → set_language env t l = .ok t2 → ReachOk env t2
  | lang_err (t : MKVTrack) (l : Option String) (e : PyErr) (t2 : MKVTrack) :
      ReachOk env t → set_language env t l = .error (e, t2) → ReachOk env t2
  | tags_ok (t : MKVTrack) (v : PyVal) (t2 : MKVTrack) :
      ReachOk env t → set_tags env t v = .ok t2 → ReachOk env t2
  | tags_err (t : MKVTrack) (v : PyVal) (e : PyErr) (t2 : MKVTrack) :
      ReachOk env t → set_tags env t v = .error (e, t2) → ReachOk env t2
  | name (t : MKVTrack) (nm : Option String) :
      ReachOk env t → ReachOk env { t with track_name := nm }
  | flags (t : MKVTrack) (a b c d e f : Bool) :
      ReachOk env t → ReachOk env { t with
        default_track := a, forced_track := b, no_chapters := c,
        no_global_tags := d, no_track_tags := e, no_attachments := f }

/-- Probe inventory of the concrete test file `sample.mkv`:
the two-track example of the concrete scenario in the specification. -/
def testTracks : List ProbeTrack := [⟨"AVC", "video"⟩, ⟨"AAC", "audio"⟩]

/-- A concrete environment: `sample.mkv` is a supported two-track file,
`empty.mkv` passes the support check but probes to an empty inventory,
`probefail.mkv` passes the support check but its probe process fails,
`eng` is the only valid language code, `present.xml` the only existing
regular file; user expansion is the identity. -/
def testEnv : Env where
  expanduser := fun s => s
  verify_supported := fun s =>
    s == "sample.mkv" || s == "empty.mkv" || s == "probefail.mkv"
  is_ISO639_2 := fun s => s == "eng"
  isfile := fun s => s == "present.xml"
  probe := fun _ p =>
    if p == "sample.mkv" then .ok testTracks
    else if p == "empty.mkv" then .ok []
    else .exitNonzero
  content := fun _ => []

/-- The descriptor built by `MKVTrack("sample.mkv")` under `testEnv`. -/
def t0c : MKVTrack :=
  { mkvmerge_path := "mkvmerge", _file_path := some "sample.mkv",
    _track_id := some 0, _track_codec := some "AVC", _track_type := some "video",
    track_name := none, _language := none, _tags := none,
    default_track := false, forced_track := false, no_chapters := false,
    no_global_tags := false, no_track_tags := false, no_attachments := false }

/-- State of `t0c` after the successful assignment `track_id = 1`. -/
def t1c : MKVTrack :=
  { t0c with
    _track_id := some 1, _track_codec := some "AAC",
    _track_type := some "audio" }

/-- The state a failed `file_path = "empty.mkv"` assignment leaves `t0c` in:
the new path is already stored when the cascaded `track_id = 0` raises. -/
def emptyFileState : MKVTrack := { t0c with _file_path := some "empty.mkv" }

/-- The state a failed `file_path = "probefail.mkv"` assignment leaves `t0c`
in: the new path is stored, then the cascaded probe process fails. -/
def probeFailState : MKVTrack := { t0c with _file_path := some "probefail.mkv" }

/-- The half-constructed state at the moment `__init__("bad.txt")` raises
inside the `file_path` setter: only codec/type and `mkvmerge_path` were
assigned before the raise. -/
def initFailState : MKVTrack :=
  { blank with mkvmerge_path := "mkvmerge" }

/-! ## Helper lemmas about the setters -/

lemma run_probe_some_ok (env : Env) (m p : String) (tracks : List ProbeTrack)
    (hpr : env.probe m p = .ok tracks) :
    run_probe env m (some p) = .ok tracks := by
  simp [run_probe, hpr]

lemma run_probe_ok_shape (env : Env) (m : String) (fp : Option String)
    (tracks : List ProbeTrack) (h : run_probe env m fp = .ok tracks) :
    ∃ p, fp = some p ∧ env.probe m p = .ok tracks := by
  cases fp with
  | none => simp [run_probe] at h
  | some p =>
    refine ⟨p, rfl, ?_⟩
    cases hq : env.probe m p <;> simp [run_probe, hq] at h
    subst h; rfl

lemma run_probe_error_shape (env : Env) (m : String) (fp : Option String)
    (e : PyErr) (h : run_probe env m fp = .error e) :
    (∀ s, e ≠ .valueError s) ∧ (∀ s, e ≠ .indexError s) := by
  cases fp with
  | none =>
    simp [run_probe] at h
    subst h
    exact ⟨(fun s hs => nomatch hs), (fun s hs => nomatch hs)⟩
  | some p =>
    cases hq : env.probe m p <;> simp [run_probe, hq] at h <;> subst h <;>
      exact ⟨(fun s hs => nomatch hs), (fun s hs => nomatch hs)⟩

lemma set_track_id_ok_of (env : Env) (t : MKVTrack) (fp : String)
    (tracks : List ProbeTrack) (i : Int) (tr : ProbeTrack)
    (hfp : t._file_path = some fp)
    (hpr : env.probe t.mkvmerge_path fp = .ok tracks)
    (h0 : 0 ≤ i) (hlt : i < (tracks.length : Int))
    (hget : tracks[i.toNat]? = some tr) :
    set_track_id env t i = .ok { t with
      _track_id := some i, _track_codec := some tr.codec,
      _track_type := some tr.type } := by
  have hn : i.toNat < tracks.length := by omega
  rw [List.getElem?_eq_getElem hn] at hget
  have htr : tracks.get ⟨i.toNat, hn⟩ = tr := by
    simpa using hget
  unfold set_track_id
  rw [hfp, run_probe_some_ok env t.mkvmerge_path fp tracks hpr]
  simp only [dif_pos (And.intro h0 hlt), htr]

lemma set_track_id_error_state (env : Env) (t : MKVTrack) (i : Int)
    (e : PyErr) (t2 : MKVTrack)
    (h : set_track_id env t i = .error (e, t2)) :
    t2 = t ∧ (∀ s, e ≠ .valueError s) := by
  unfold set_track_id at h
  split at h
  · rename_i e2 heq
    rw [Except.error.injEq, Prod.mk.injEq] at h
    obtain ⟨he, ht⟩ := h
    subst he; subst ht
    exact ⟨rfl, (run_probe_error_shape env t.mkvmerge_path t._file_path e2 heq).1⟩
  · split at h
    · simp at h
    · rw [Except.error.injEq, Prod.mk.injEq] at h
      obtain ⟨he, ht⟩ := h
      subst he; subst ht
      exact ⟨rfl, (fun s hs => nomatch hs)⟩


lemma set_language_none (env : Env) (t : MKVTrack) :
    set_language env t none = .ok { t with _language := none } := rfl

lemma set_language_some (env : Env) (t : MKVTrack) (c : String) :
    set_language env t (some c) =
      if env.is_ISO639_2 c then .ok { t with _language := some c }
      else .error (.valueError "not an ISO639-2 language code", t) := rfl

lemma set_tags_other (env : Env) (t : MKVTrack) (r : String) :
    set_tags env t (.other r) =
      .error (.typeError ("\"" ++ r ++ "\" is not of type str"), t) := rfl

lemma set_tags_str (env : Env) (t : MKVTrack) (p : String) :
    set_tags env t (.str p) =
      if env.isfile (env.expanduser p) then
        .ok { t with _tags := some (env.expanduser p) }
      else
        .error (.fileNotFoundError ("\"" ++ env.expanduser p ++ "\" does not exist"), t) := rfl

lemma set_file_path_eq (env : Env) (t : MKVTrack) (p : String) :
    set_file_path env t p =
      if env.verify_supported (env.expanduser p) then
        set_track_id env { t with _file_path := some (env.expanduser p) } 0
      else
        .error (.valueError unsupportedMsg, t) := rfl

lemma set_language_ok_state (env : Env) (t : MKVTrack) (l : Option String)
    (t2 : MKVTrack) (h : set_language env t l = .ok t2) :
    t2 = { t with _language := l } := by
  cases l with
  | none =>
    rw [set_language_none, Except.ok.injEq] at h
    exact h.symm
  | some c =>
    rw [set_language_some] at h
    split at h
    · rw [Except.ok.injEq] at h
      exact h.symm
    · simp at h

lemma set_language_err_state (env : Env) (t : MKVTrack) (l : Option String)
    (e : PyErr) (t2 : MKVTrack) (h : set_language env t l = .error (e, t2)) :
    t2 = t ∧ e = .valueError "not an ISO639-2 language code" := by
  cases l with
  | none => rw [set_language_none] at h; simp at h
  | some c =>
    rw [set_language_some] at h
    split at h
    · simp at h
    · rw [Except.error.injEq, Prod.mk.injEq] at h
      exact ⟨h.2.symm, h.1.symm⟩

lemma set_tags_ok_state (env : Env) (t : MKVTrack) (v : PyVal)
    (t2 : MKVTrack) (h : set_tags env t v = .ok t2) :
    ∃ p, v = .str p ∧ env.isfile (env.expanduser p) = true ∧
      t2 = { t with _tags := some (env.expanduser p) } := by
  cases v with
  | other r => rw [set_tags_other] at h; simp at h
  | str p =>
    rw [set_tags_str] at h
    split at h
    · rw [Except.ok.injEq] at h
      rename_i hfile
      exact ⟨p, rfl, hfile, h.symm⟩
    · simp at h

lemma set_tags_err_state (env : Env) (t : MKVTrack) (v : PyVal)
    (e : PyErr) (t2 : MKVTrack) (h : set_tags env t v = .error (e, t2)) :
    t2 = t := by
  cases v with
  | other r =>
    rw [set_tags_other, Except.error.injEq, Prod.mk.injEq] at h
    exact h.2.symm
  | str p =>
    rw [set_tags_str] at h
    split at h
    · simp at h
    · rw [Except.error.injEq, Prod.mk.injEq] at h
      exact h.2.symm

lemma consistentB_congr (env : Env) (t2 t : MKVTrack)
    (h1 : t2.mkvmerge_path = t.mkvmerge_path)
    (h2 : t2._file_path = t._file_path)
    (h3 : t2._track_id = t._track_id)
    (h4 : t2._track_codec = t._track_codec)
    (h5 : t2._track_type = t._track_type) :
    consistentB env t2 = consistentB env t := by
  unfold consistentB
  rw [h1, h2, h3, h4, h5]

lemma set_track_id_ok_consistent (env : Env) (t : MKVTrack) (i : Int)
    (t2 : MKVTrack) (h : set_track_id env t i = .ok t2) :
    consistentB env t2 = true := by
  unfold set_track_id at h
  split at h
  · simp at h
  · rename_i tracks heq
    split at h
    · rename_i hc
      rw [Except.ok.injEq] at h
      subst h
      obtain ⟨p, hp, hpr⟩ :=
        run_probe_ok_shape env t.mkvmerge_path t._file_path tracks heq
      unfold consistentB
      dsimp only
      rw [hp]
      dsimp only
      rw [hpr]
      dsimp only
      rw [dif_pos hc]
      rw [Bool.and_eq_true, beq_iff_eq, beq_iff_eq]
      exact ⟨rfl, rfl⟩
    · simp at h

lemma set_file_path_ok_state (env : Env) (t : MKVTrack) (p : String)
    (t2 : MKVTrack) (h : set_file_path env t p = .ok t2) :
    env.verify_supported (env.expanduser p) = true ∧
      set_track_id env { t with _file_path := some (env.expanduser p) } 0 = .ok t2 := by
  rw [set_file_path_eq] at h
  split at h
  · rename_i hv
    exact ⟨hv, h⟩
  · simp at h

lemma set_file_path_ok_consistent (env : Env) (t : MKVTrack) (p : String)
    (t2 : MKVTrack) (h : set_file_path env t p = .ok t2) :
    consistentB env t2 = true :=
  set_track_id_ok_consistent env _ 0 t2 (set_file_path_ok_state env t p t2 h).2

lemma exbind_ok {e a b : Type} (x : a) (f : a → Except e b) :
    Except.bind (.ok x) f = f x := rfl

lemma exbind_err {e a b : Type} (x : e) (f : a → Except e b) :
    Except.bind (.error x) f = (.error x : Except e b) := rfl

lemma init_eq (env : Env) (f : String) (i : Int) (nm lg : Option String)
    (d fo : Bool) :
    MKVTrack.init env f i nm lg d fo =
      Except.bind (set_file_path env preInit f) (fun t1 =>
        Except.bind (set_track_id env { t1 with _track_id := none } i) (fun t3 =>
          Except.bind
            (set_language env { t3 with track_name := nm, _language := none } lg)
            (fun t5 => Except.ok { t5 with
              _tags := none, default_track := d, forced_track := fo,
              no_chapters := false, no_global_tags := false,
              no_track_tags := false, no_attachments := false }))) := rfl

lemma init_ok_of (env : Env) (f : String) (i : Int) (nm lg : Option String)
    (d fo : Bool) (t1 t3 t5 : MKVTrack)
    (h1 : set_file_path env preInit f = .ok t1)
    (h2 : set_track_id env { t1 with _track_id := none } i = .ok t3)
    (h3 : set_language env { t3 with track_name := nm, _language := none } lg = .ok t5) :
    MKVTrack.init env f i nm lg d fo = .ok { t5 with
      _tags := none, default_track := d, forced_track := fo,
      no_chapters := false, no_global_tags := false,
      no_track_tags := false, no_attachments := false } := by
  rw [init_eq, h1, exbind_ok, h2, exbind_ok, h3, exbind_ok]

lemma init_ok_shape (env : Env) (f : String) (i : Int) (nm lg : Option String)
    (d fo : Bool) (t : MKVTrack) (h : MKVTrack.init env f i nm lg d fo = .ok t) :
    ∃ t1 t3 t5, set_file_path env preInit f = .ok t1 ∧
      set_track_id env { t1 with _track_id := none } i = .ok t3 ∧
      set_language env { t3 with track_name := nm, _language := none } lg = .ok t5 ∧
      t = { t5 with
        _tags := none, default_track := d, forced_track := fo,
        no_chapters := false, no_global_tags := false,
        no_track_tags := false, no_attachments := false } := by
  rw [init_eq] at h
  cases hh1 : set_file_path env preInit f with
  | error x => rw [hh1, exbind_err] at h; simp at h
  | ok t1 =>
    rw [hh1, exbind_ok] at h
    cases hh2 : set_track_id env { t1 with _track_id := none } i with
    | error x => rw [hh2, exbind_err] at h; simp at h
    | ok t3 =>
      rw [hh2, exbind_ok] at h
      cases hh3 : set_language env { t3 with track_name := nm, _language := none } lg with
      | error x => rw [hh3, exbind_err] at h; simp at h
      | ok t5 =>
        rw [hh3, exbind_ok, Except.ok.injEq] at h
        exact ⟨t1, t3, t5, rfl, hh2, hh3, h.symm⟩


lemma set_language_ok_of (env : Env) (t : MKVTrack) (lg : Option String)
    (hlg : ∀ c, lg = some c → env.is_ISO639_2 c = true) :
    set_language env t lg = .ok { t with _language := lg } := by
  cases lg with
  | none => exact set_language_none env t
  | some c => rw [set_language_some, if_pos (hlg c rfl)]

lemma init_ok_consistent (env : Env) (f : String) (i : Int)
    (nm lg : Option String) (d fo : Bool) (t : MKVTrack)
    (h : MKVTrack.init env f i nm lg d fo = .ok t) :
    consistentB env t = true := by
  obtain ⟨t1, t3, t5, h1, h2, h3, ht⟩ := init_ok_shape env f i nm lg d fo t h
  have h5 := set_language_ok_state env _ lg t5 h3
  subst ht; subst h5
  exact (consistentB_congr env _ t3 rfl rfl rfl rfl rfl).trans
    (set_track_id_ok_consistent env _ i t3 h2)

/-! ## Claim theorems -/

/-- C2: for a descriptor in a valid state (it holds a current file path) whose
current file the probe reports with `tracks.length` tracks, assigning any
integer index that is negative or at least that count fails with the
`IndexError` kind carrying the message `track index out of range`, and the
raised exception carries the descriptor exactly as it was — every field
unchanged. -/
theorem C2_track_id_out_of_range (env : Env) (t : MKVTrack) (fp : String)
    (tracks : List ProbeTrack) (i : Int)
    (hfp : t._file_path = some fp)
    (hpr : env.probe t.mkvmerge_path fp = .ok tracks)
    (hi : i < 0 ∨ (tracks.length : Int) ≤ i) :
    set_track_id env t i = .error (.indexError "track index out of range", t) := by
  unfold set_track_id
  rw [hfp, run_probe_some_ok env t.mkvmerge_path fp tracks hpr]
  dsimp only
  rw [dif_neg (by omega)]

/-- C2 witness: the two-track `sample.mkv` descriptor rejects index 5. -/
theorem C2_witness :
    t0c._file_path = some "sample.mkv" ∧
    testEnv.probe t0c.mkvmerge_path "sample.mkv" = .ok testTracks ∧
    ((5 : Int) < 0 ∨ (testTracks.length : Int) ≤ 5) ∧
    set_track_id testEnv t0c 5 =
      .error (.indexError "track index out of range", t0c) :=
  ⟨rfl, by decide, Or.inr (by decide),
    C2_track_id_out_of_range testEnv t0c "sample.mkv" testTracks 5 rfl
      (by decide) (Or.inr (by decide))⟩

/-- C5: assigning a language string succeeds iff the validator accepts it,
in which case the string is stored verbatim and only `_language` changes;
assigning `None` always succeeds and clears the field; a rejected assignment
fails with the `ValueError` kind (`InvalidLanguageError`) and the exception
carries the descriptor unchanged, so the previous language value is intact. -/
theorem C5_language_setter (env : Env) (t : MKVTrack) (c : String) :
    ((∃ t2, set_language env t (some c) = .ok t2) ↔ env.is_ISO639_2 c = true) ∧
    (env.is_ISO639_2 c = true →
      set_language env t (some c) = .ok { t with _language := some c }) ∧
    (env.is_ISO639_2 c = false →
      set_language env t (some c) =
        .error (.valueError "not an ISO639-2 language code", t)) ∧
    set_language env t none = .ok { t with _language := none } := by
  cases hiso : env.is_ISO639_2 c with
  | false => simp [set_language_some, set_language_none, hiso]
  | true => simp [set_language_some, set_language_none, hiso]

/-- C5 witness: `eng` is accepted and stored verbatim on `t0c`. -/
theorem C5_witness :
    testEnv.is_ISO639_2 "eng" = true ∧
    set_language testEnv t0c (some "eng") = .ok { t0c with _language := some "eng" } :=
  ⟨by decide, (C5_language_setter testEnv t0c "eng").2.1 (by decide)⟩

/-- C6: assigning a non-string to `tags` fails with the `TypeError` kind
before any path expansion; assigning a string fails iff the user-expanded
path is not an existing regular file, with the `FileNotFoundError` kind and
the descriptor unchanged; otherwise the expanded path is stored; and the
result never depends on the file content (replacing the environment
content map changes nothing). -/
theorem C6_tags_setter (env : Env) (t : MKVTrack) :
    (∀ r, set_tags env t (.other r) =
      .error (.typeError ("\"" ++ r ++ "\" is not of type str"), t)) ∧
    (∀ p, ((∃ e t2, set_tags env t (.str p) = .error (e, t2)) ↔
      env.isfile (env.expanduser p) = false)) ∧
    (∀ p, env.isfile (env.expanduser p) = false →
      set_tags env t (.str p) =
        .error (.fileNotFoundError ("\"" ++ env.expanduser p ++ "\" does not exist"), t)) ∧
    (∀ p, env.isfile (env.expanduser p) = true →
      set_tags env t (.str p) = .ok { t with _tags := some (env.expanduser p) }) ∧
    (∀ c2 v, set_tags { env with content := c2 } t v = set_tags env t v) := by
  refine ⟨fun r => set_tags_other env t r, ?_, ?_, ?_, ?_⟩
  · intro p
    cases hf : env.isfile (env.expanduser p) with
    | false => simp [set_tags_str, hf]
    | true => simp [set_tags_str, hf]
  · intro p hf
    rw [set_tags_str, if_neg (by simp [hf])]
  · intro p hf
    rw [set_tags_str, if_pos hf]
  · intro c2 v
    cases v <;> rfl

/-- C6 witness: `present.xml` exists in `testEnv` and is stored. -/
theorem C6_witness :
    testEnv.isfile (testEnv.expanduser "present.xml") = true ∧
    set_tags testEnv t0c (.str "present.xml") =
      .ok { t0c with _tags := some (testEnv.expanduser "present.xml") } :=
  ⟨by decide, (C6_tags_setter testEnv t0c).2.2.2.1 "present.xml" (by decide)⟩

/-- C10: a successful `track_id` assignment changes at most `_track_id`,
`_track_codec` and `_track_type`: the file path, display name, language,
tags path, the six mux-time flags and the probe tool path of the result are
exactly those of the starting state. -/
theorem C10_track_id_frame (env : Env) (t : MKVTrack) (i : Int) (t2 : MKVTrack)
    (h : set_track_id env t i = .ok t2) :
    t2.mkvmerge_path = t.mkvmerge_path ∧ t2._file_path = t._file_path ∧
    t2.track_name = t.track_name ∧ t2._language = t._language ∧
    t2._tags = t._tags ∧ t2.default_track = t.default_track ∧
    t2.forced_track = t.forced_track ∧ t2.no_chapters = t.no_chapters ∧
    t2.no_global_tags = t.no_global_tags ∧ t2.no_track_tags = t.no_track_tags ∧
    t2.no_attachments = t.no_attachments := by
  unfold set_track_id at h
  split at h
  · simp at h
  · split at h
    · rw [Except.ok.injEq] at h
      subst h
      exact ⟨rfl, rfl, rfl, rfl, rfl, rfl, rfl, rfl, rfl, rfl, rfl⟩
    · simp at h

/-- C10 witness: assigning `track_id = 1` on `t0c` succeeds and leaves all
other fields as they were. -/
theorem C10_witness :
    set_track_id testEnv t0c 1 = .ok t1c ∧
    (t1c.mkvmerge_path = t0c.mkvmerge_path ∧ t1c._file_path = t0c._file_path ∧
    t1c.track_name = t0c.track_name ∧ t1c._language = t0c._language ∧
    t1c._tags = t0c._tags ∧ t1c.default_track = t0c.default_track ∧
    t1c.forced_track = t0c.forced_track ∧ t1c.no_chapters = t0c.no_chapters ∧
    t1c.no_global_tags = t0c.no_global_tags ∧
    t1c.no_track_tags = t0c.no_track_tags ∧
    t1c.no_attachments = t0c.no_attachments) :=
  ⟨by decide, C10_track_id_frame testEnv t0c 1 t1c (by decide)⟩

/-- C3: assigning a new path that passes the support check, when the probe of
that path reports a non-empty inventory `tr :: rest`, succeeds and stores the
user-expanded path, resets `_track_id` to 0, and overwrites codec and type
with the fields of the first record — whatever the previous track index was. -/
theorem C3_file_path_resets (env : Env) (t : MKVTrack) (p : String)
    (tr : ProbeTrack) (rest : List ProbeTrack)
    (hsup : env.verify_supported (env.expanduser p) = true)
    (hpr : env.probe t.mkvmerge_path (env.expanduser p) = .ok (tr :: rest)) :
    set_file_path env t p = .ok { t with
      _file_path := some (env.expanduser p), _track_id := some 0,
      _track_codec := some tr.codec, _track_type := some tr.type } := by
  rw [set_file_path_eq, if_pos hsup]
  exact set_track_id_ok_of env { t with _file_path := some (env.expanduser p) }
    (env.expanduser p) (tr :: rest) 0 tr rfl hpr (by omega)
    (by exact_mod_cast Nat.succ_pos rest.length) (by simp)

/-- C3 witness: reassigning `sample.mkv` to the descriptor currently at
track 1 resets it to track 0 with the codec and type of the first track. -/
theorem C3_witness :
    testEnv.verify_supported (testEnv.expanduser "sample.mkv") = true ∧
    testEnv.probe t1c.mkvmerge_path (testEnv.expanduser "sample.mkv") =
      .ok (ProbeTrack.mk "AVC" "video" :: [ProbeTrack.mk "AAC" "audio"]) ∧
    set_file_path testEnv t1c "sample.mkv" = .ok { t1c with
      _file_path := some (testEnv.expanduser "sample.mkv"), _track_id := some 0,
      _track_codec := some "AVC", _track_type := some "video" } :=
  ⟨by decide, by decide,
    C3_file_path_resets testEnv t1c "sample.mkv" (ProbeTrack.mk "AVC" "video")
      [ProbeTrack.mk "AAC" "audio"] (by decide) (by decide)⟩

/-- C1: constructing a descriptor from a file accepted by the support check,
whose probe reports an inventory containing position `i`, with a language
that is null or accepted by the validator, succeeds; the resulting codec and
type are exactly the `codec` and `type` fields of the probe record at
position `i`. -/
theorem C1_create_valid_index (env : Env) (f : String) (i : Int)
    (nm lg : Option String) (d fo : Bool)
    (tracks : List ProbeTrack) (tr : ProbeTrack)
    (hsup : env.verify_supported (env.expanduser f) = true)
    (hpr : env.probe "mkvmerge" (env.expanduser f) = .ok tracks)
    (h0 : 0 ≤ i) (hlt : i < (tracks.length : Int))
    (hget : tracks[i.toNat]? = some tr)
    (hlg : ∀ c, lg = some c → env.is_ISO639_2 c = true) :
    ∃ t, MKVTrack.init env f i nm lg d fo = .ok t ∧
      t.track_codec = some tr.codec ∧ t.track_type = some tr.type := by
  cases tracks with
  | nil =>
    exfalso
    simp at hlt
    omega
  | cons tr0 rest =>
    have h1 : set_file_path env preInit f = .ok { preInit with
        _file_path := some (env.expanduser f), _track_id := some (0 : Int),
        _track_codec := some tr0.codec, _track_type := some tr0.type } := by
      rw [set_file_path_eq, if_pos hsup]
      exact set_track_id_ok_of env
        { preInit with _file_path := some (env.expanduser f) }
        (env.expanduser f) (tr0 :: rest) 0 tr0 rfl hpr (by omega)
        (by exact_mod_cast Nat.succ_pos rest.length) (by simp)
    refine ⟨_, init_ok_of env f i nm lg d fo _ _ _ h1
      (set_track_id_ok_of env _ (env.expanduser f) (tr0 :: rest) i tr rfl hpr
        h0 hlt hget)
      (set_language_ok_of env _ lg hlg), rfl, rfl⟩

/-- C1 witness: `create("sample.mkv", 1, language="eng")` succeeds with the
codec and type of the second track. -/
theorem C1_witness :
    testEnv.verify_supported (testEnv.expanduser "sample.mkv") = true ∧
    testEnv.probe "mkvmerge" (testEnv.expanduser "sample.mkv") = .ok testTracks ∧
    ((0 : Int) ≤ 1 ∧ (1 : Int) < (testTracks.length : Int)) ∧
    testTracks[(1 : Int).toNat]? = some (ProbeTrack.mk "AAC" "audio") ∧
    (∃ t, MKVTrack.init testEnv "sample.mkv" 1 none (some "eng") false false = .ok t ∧
      t.track_codec = some (ProbeTrack.mk "AAC" "audio").codec ∧
      t.track_type = some (ProbeTrack.mk "AAC" "audio").type) :=
  ⟨by decide, by decide, ⟨by decide, by decide⟩, by decide,
    C1_create_valid_index testEnv "sample.mkv" 1 none (some "eng") false false
      testTracks (ProbeTrack.mk "AAC" "audio") (by decide) (by decide)
      (by decide) (by decide) (by decide)
      (fun c hc => by
        injection hc with h2
        subst h2
        rfl)⟩

/-- C4 counterexample: assigning `empty.mkv` — supported, but probing to an
empty inventory — to the `sample.mkv` descriptor fails with the `IndexError`
kind, not the unsupported-file kind, and the state in the exception has
`_file_path` already overwritten: the prior state is not preserved. -/
theorem C4_counterexample :
    set_file_path testEnv t0c "empty.mkv" =
      .error (.indexError "track index out of range", emptyFileState) ∧
    emptyFileState._file_path ≠ t0c._file_path ∧
    isUnsupportedErr (.indexError "track index out of range") = false := by
  decide

/-- C4 (amended): when a `file_path` assignment fails at the support check,
the failure is the unsupported-file `ValueError` kind and the descriptor is
entirely unchanged; but when the support check passes and the cascaded
`track_id = 0` re-probe fails, the escaping exception is never the
unsupported-file kind and the state it leaves behind has `_file_path`
already overwritten with the new expanded path (all other fields keep their
prior values) — a partial write. -/
theorem C4_file_path_failure (env : Env) (t : MKVTrack) (p : String) :
    (env.verify_supported (env.expanduser p) = false →
      set_file_path env t p = .error (.valueError unsupportedMsg, t)) ∧
    (env.verify_supported (env.expanduser p) = true →
      ∀ e t2, set_file_path env t p = .error (e, t2) →
        t2 = { t with _file_path := some (env.expanduser p) } ∧
        isUnsupportedErr e = false) := by
  constructor
  · intro hv
    rw [set_file_path_eq, if_neg (by simp [hv])]
  · intro hv e t2 h
    rw [set_file_path_eq, if_pos hv] at h
    obtain ⟨ht, hne⟩ := set_track_id_error_state env _ 0 e t2 h
    refine ⟨ht, ?_⟩
    rw [show isUnsupportedErr e = (e == PyErr.valueError unsupportedMsg) from rfl,
      beq_eq_false_iff_ne]
    exact hne unsupportedMsg

/-- C4 witness: assigning the unsupported `bad.txt` fails with the
unsupported-file kind and the carried state is the untouched descriptor. -/
theorem C4_witness :
    testEnv.verify_supported (testEnv.expanduser "bad.txt") = false ∧
    set_file_path testEnv t0c "bad.txt" =
      .error (.valueError unsupportedMsg, t0c) :=
  ⟨by decide, (C4_file_path_failure testEnv t0c "bad.txt").1 (by decide)⟩

/-- C7 counterexample: on a descriptor where probing the current file
fails, assigning `track_id = 0` raises the propagated process error
(`CalledProcessError`), which is not the unsupported-file kind the claim
names. -/
theorem C7_counterexample :
    set_track_id testEnv probeFailState 0 =
      .error (.calledProcessError, probeFailState) ∧
    isUnsupportedErr .calledProcessError = false := by
  decide

/-- C7 (amended): each probe failure mode — non-zero exit, unparsable
output, missing `tracks` sequence — propagates from a `track_id` assignment
immediately and unwrapped as, respectively, the `CalledProcessError`,
`JSONDecodeError` and `KeyError` kinds (never the unsupported-file kind),
with the descriptor unchanged; the probe is invoked exactly once with no
retry. -/
theorem C7_probe_failures (env : Env) (t : MKVTrack) (fp : String) (i : Int)
    (hfp : t._file_path = some fp) :
    (env.probe t.mkvmerge_path fp = .exitNonzero →
      set_track_id env t i = .error (.calledProcessError, t)) ∧
    (env.probe t.mkvmerge_path fp = .unparsable →
      set_track_id env t i = .error (.jsonDecodeError, t)) ∧
    (env.probe t.mkvmerge_path fp = .missingTracks →
      set_track_id env t i = .error (.keyError, t)) := by
  refine ⟨?_, ?_, ?_⟩ <;> intro hq <;>
    (unfold set_track_id run_probe; rw [hfp]; dsimp only; rw [hq])

/-- C7 witness: the `probefail.mkv` descriptor surfaces the process failure
on a `track_id` assignment, unchanged. -/
theorem C7_witness :
    probeFailState._file_path = some "probefail.mkv" ∧
    testEnv.probe probeFailState.mkvmerge_path "probefail.mkv" = .exitNonzero ∧
    set_track_id testEnv probeFailState 3 =
      .error (.calledProcessError, probeFailState) :=
  ⟨rfl, by decide,
    (C7_probe_failures testEnv probeFailState "probefail.mkv" 3 rfl).1 (by decide)⟩

/-- C9 (code bug): the `ValueError` raised for an unsupported file carries
the literal message `"{}" is not a supported file` — the source omits the
`.format(file_path)` call at line 113, unlike the two correctly formatted
messages of the `tags` setter — so the message does not contain the
offending path (`bad.txt` here), neither on construction nor on a
`file_path` assignment. -/
theorem C9_message_lacks_path :
    MKVTrack.init testEnv "bad.txt" 0 none none false false =
      .error (.valueError unsupportedMsg, initFailState) ∧
    set_file_path testEnv t0c "bad.txt" =
      .error (.valueError unsupportedMsg, t0c) ∧
    strContains unsupportedMsg "bad.txt" = false := by
  decide

/-- C8 counterexample: the state left behind by a rejected
`file_path = "empty.mkv"` assignment on the `sample.mkv` descriptor is
reachable (construction followed by the rejected mutation), yet its codec
and type are not consistent with its current `(filePath, trackIndex)` pair —
they still describe the first track of the previous file while `_file_path`
already names `empty.mkv`. -/
theorem C8_counterexample :
    Reach testEnv emptyFileState ∧ consistentB testEnv emptyFileState = false :=
  ⟨Reach.fp_err t0c "empty.mkv" (.indexError "track index out of range")
      emptyFileState
      (Reach.init "sample.mkv" 0 none none false false t0c (by decide))
      (by decide),
    by decide⟩

/-- C8 (amended): in every state reachable through construction and mutator
calls — successful ones, and rejected ones other than a `file_path`
assignment whose cascaded re-probe fails after the support check passed —
the codec and type are exactly the fields of the probe record for the
current `(filePath, trackIndex)` pair, and only the probing `track_id`
setter (directly or through the `file_path` cascade) ever writes them. -/
theorem C8_invariant (env : Env) (t : MKVTrack) (h : ReachOk env t) :
    consistentB env t = true := by
  induction h with
  | init fp i nm lg d fo t0 ht =>
    exact init_ok_consistent env fp i nm lg d fo t0 ht
  | fp_ok t0 p t2 hr h2 ih =>
    exact set_file_path_ok_consistent env t0 p t2 h2
  | fp_rej t0 p e t2 hr hv h2 ih =>
    rw [set_file_path_eq, if_neg (by simp [hv]), Except.error.injEq,
      Prod.mk.injEq] at h2
    rw [← h2.2]
    exact ih
  | tid_ok t0 i t2 hr h2 ih =>
    exact set_track_id_ok_consistent env t0 i t2 h2
  | tid_err t0 i e t2 hr h2 ih =>
    obtain ⟨ht2, -⟩ := set_track_id_error_state env t0 i e t2 h2
    rw [ht2]
    exact ih
  | lang_ok t0 l t2 hr h2 ih =>
    rw [set_language_ok_state env t0 l t2 h2]
    exact (consistentB_congr env _ t0 rfl rfl rfl rfl rfl).trans ih
  | lang_err t0 l e t2 hr h2 ih =>
    obtain ⟨ht2, -⟩ := set_language_err_state env t0 l e t2 h2
    rw [ht2]
    exact ih
  | tags_ok t0 v t2 hr h2 ih =>
    obtain ⟨p, -, -, ht2⟩ := set_tags_ok_state env t0 v t2 h2
    rw [ht2]
    exact (consistentB_congr env _ t0 rfl rfl rfl rfl rfl).trans ih
  | tags_err t0 v e t2 hr h2 ih =>
    rw [set_tags_err_state env t0 v e t2 h2]
    exact ih
  | name t0 nm hr ih =>
    exact (consistentB_congr env _ t0 rfl rfl rfl rfl rfl).trans ih
  | flags t0 a b c d e f hr ih =>
    exact (consistentB_congr env _ t0 rfl rfl rfl rfl rfl).trans ih

/-- C8 witness: the state after construction from `sample.mkv` followed by a
successful `track_id = 1` assignment is reachable and consistent. -/
theorem C8_witness :
    ReachOk testEnv t1c ∧ consistentB testEnv t1c = true :=
  have hr : ReachOk testEnv t1c :=
    ReachOk.tid_ok t0c 1 t1c
      (ReachOk.init "sample.mkv" 0 none none false false t0c (by decide))
      (by decide)
  ⟨hr, C8_invariant testEnv t1c hr⟩
